import Mathlib

/-!
Shallow embedding of the PasaTanda payments backend fiat-automation core:
the job serialization queue (`JobQueueService`), the 2FA credential store
(`TwoFaStoreService`), the browser session manager (`FiatBrowserService`)
and the automation orchestrator (`FiatAutomationService`).

TypeScript `Map<string, QrJobRecord>` is embedded as an insertion-ordered
association list; `Date.now()` timestamps are `Nat` milliseconds; promises
that settle are embedded as a pair of settle time and `Except` outcome;
thrown exceptions are `Except.error` values.
-/

namespace PasaTanda

/-- `QrJobRecord` from `job-queue.service.ts`: `{ orderId, details, timestamp }`. -/
structure QrJobRecord where
  orderId : String
  details : String
  timestamp : Nat
  deriving Repr, DecidableEq

/-- `JOB_EXPIRY_MS = 24 * 60 * 60 * 1000` (24 hours). -/
def JOB_EXPIRY_MS : Nat := 24 * 60 * 60 * 1000

/-- The `processedJobs : Map<string, QrJobRecord>` field, as an
insertion-ordered association list keyed by `orderId`. -/
abbrev JobMap := List (String × QrJobRecord)

/-- JS `Map.has(k)`. -/
def mapHas (jobs : JobMap) (k : String) : Bool :=
  jobs.any (fun kv => kv.1 = k)

/-- JS `Map.set(k, v)`: replace in place when the key exists (keeping
insertion order), otherwise append at the end. -/
def mapSet (jobs : JobMap) (k : String) (v : QrJobRecord) : JobMap :=
  if mapHas jobs k then
    jobs.map (fun kv => if kv.1 = k then (k, v) else kv)
  else jobs ++ [(k, v)]

/-- The expiry sweep loop at the top of `isDuplicate`: delete every record
with `now - record.timestamp > JOB_EXPIRY_MS` (kept iff `now - ts ≤ 24h`;
JS negative differences compare `> JOB_EXPIRY_MS` as false exactly like
truncated `Nat` subtraction). -/
def sweepExpired (now : Nat) (jobs : JobMap) : JobMap :=
  jobs.filter (fun kv => now - kv.2.timestamp ≤ JOB_EXPIRY_MS)

/-- Mutable state of `JobQueueService`: the dedup map plus the pipeline of
scheduled tasks (each task identified by an opaque id, in append order). -/
structure JobQueueState where
  processedJobs : JobMap
  pipeline : List String
  deriving Repr, DecidableEq

/-- `JobQueueService.isDuplicate(orderId, details)`: sweep expired records,
then check the key set for `orderId` and the record values for `details`.
Returns the flag together with the swept map (the sweep mutates the map). -/
def isDuplicate (jobs : JobMap) (now : Nat) (orderId details : String) :
    Bool × JobMap :=
  let swept := sweepExpired now jobs
  (swept.any (fun kv => kv.1 = orderId) ||
     swept.any (fun kv => kv.2.details = details), swept)

/-- `JobQueueService.registerJob(orderId, details)`:
`processedJobs.set(orderId, { orderId, details, timestamp: Date.now() })`. -/
def registerJob (jobs : JobMap) (now : Nat) (orderId details : String) : JobMap :=
  mapSet jobs orderId ⟨orderId, details, now⟩

/-- `JobQueueService.tryRegisterQrJob(orderId, details)`: false on duplicate,
otherwise register and return true.  The returned state reflects the inline
sweep in both branches. -/
def tryRegisterQrJob (st : JobQueueState) (now : Nat) (orderId details : String) :
    Bool × JobQueueState :=
  if (isDuplicate st.processedJobs now orderId details).1 then
    (false, { st with
      processedJobs := (isDuplicate st.processedJobs now orderId details).2 })
  else
    (true, { st with
      processedJobs :=
        registerJob (isDuplicate st.processedJobs now orderId details).2
          now orderId details })

/-- The `ConflictException` thrown on duplicate registration, carrying the
order id and glosa mentioned in its message. -/
inductive EnqueueError where
  | conflict (orderId details : String)
  deriving Repr, DecidableEq

/-- `JobQueueService.enqueueQrJob(orderId, details, task)`: throws
`ConflictException` when `tryRegisterQrJob` fails (the task is not appended),
otherwise appends the task to the pipeline via `enqueue`. -/
def enqueueQrJob (st : JobQueueState) (now : Nat) (orderId details taskId : String) :
    Except EnqueueError Unit × JobQueueState :=
  if (tryRegisterQrJob st now orderId details).1 then
    (Except.ok (), { (tryRegisterQrJob st now orderId details).2 with
      pipeline := (tryRegisterQrJob st now orderId details).2.pipeline ++ [taskId] })
  else
    (Except.error (.conflict orderId details),
      (tryRegisterQrJob st now orderId details).2)

/-- One exclusive QR enqueue call: its clock reading and arguments. -/
structure QrCall where
  now : Nat
  orderId : String
  details : String
  taskId : String

/-- Run a sequence of `enqueueQrJob` calls, threading the service state. -/
def runQrCalls (st : JobQueueState) : List QrCall → JobQueueState
  | [] => st
  | c :: cs => runQrCalls (enqueueQrJob st c.now c.orderId c.details c.taskId).2 cs

/-! ### Credential store (`TwoFaStoreService`) -/

/-- JS whitespace recognized by `String.prototype.trim`. -/
def isJsSpace (c : Char) : Bool :=
  c = ' ' || c = '\t' || c = '\n' || c = '\r'

/-- JS `String.prototype.trim`: strip leading and trailing whitespace. -/
def jsTrim (s : String) : String :=
  ⟨((s.data.dropWhile isJsSpace).reverse.dropWhile isJsSpace).reverse⟩

/-- `TwoFaStoreService.hasCode()`: `!!this.code && this.code.trim().length > 0`
(`null` and the empty string are falsy in JS). -/
def hasCode (code : Option String) : Bool :=
  match code with
  | none => false
  | some c => decide (c ≠ "") && decide (jsTrim c ≠ "")

/-- `TwoFaStoreService.consumeCode()`: return the current code and clear the
single slot, unconditionally. -/
def consumeCode (code : Option String) : Option String × Option String :=
  (code, none)

/-- `TwoFaStoreService.setCode(code)`: `this.code = code.trim()`. -/
def setCode (_code : Option String) (newCode : String) : Option String :=
  some (jsTrim newCode)

/-! ### Promise pipeline (`JobQueueService.enqueue`)

A settled promise is embedded as its settle time and its `Except` outcome.
A queued task is embedded by its abstract running duration and the outcome
it produces when it runs: started at time `t`, its promise settles at
`t + dur` with that outcome. -/

/-- A settled promise: settle time paired with resolution / rejection. -/
abbrev Settled (ε α : Type) := Nat × Except ε α

/-- A queued task: abstract duration plus the outcome it settles with. -/
structure TaskSpec (ε α : Type) where
  dur : Nat
  res : Except ε α

/-- `() => task()` started when its predecessor promise settles at `t`. -/
def taskFuture (ts : TaskSpec ε α) : Nat → Settled ε α :=
  fun t => (t + ts.dur, ts.res)

/-- `p.then(onFulfilled)` with no rejection handler: the callback runs when
`p` resolves; a rejection of `p` passes through unchanged. -/
def thenFulfilled (p : Settled ε Unit) (f : Nat → Settled ε α) : Settled ε α :=
  match p with
  | (t, Except.ok _) => f t
  | (t, Except.error e) => (t, Except.error e)

/-- `run.then(() => undefined, () => undefined)`: both handlers are present
and return `undefined`, so the result always resolves when `run` settles —
whether `run` resolved or rejected. -/
def thenSettled (run : Settled ε α) : Settled ε Unit :=
  (run.1, Except.ok ())

/-- `JobQueueService.enqueue(task)`:
`run = tail.then(() => task()); tail = run.then(id, id); return run`. -/
def enqueueStep (tail : Settled ε Unit) (ts : TaskSpec ε α) :
    Settled ε α × Settled ε Unit :=
  let run := thenFulfilled tail (taskFuture ts)
  (run, thenSettled run)

/-- Run every queued task through the promise chain, returning each caller's
`run` promise (the future `enqueue` returns) in submission order. -/
def runQueue (tail : Settled ε Unit) : List (TaskSpec ε α) → List (Settled ε α)
  | [] => []
  | ts :: rest =>
      let s := enqueueStep tail ts
      s.1 :: runQueue s.2 rest

/-- The initial `tail = Promise.resolve()`, settled at time 0. -/
def initialTail (ε : Type) : Settled ε Unit := (0, Except.ok ())

/-- Settle time of the `i`-th queued task when the chain starts at `t0`:
`t0` plus the durations of tasks `0..i`. -/
def settleTime (t0 : Nat) (tasks : List (TaskSpec ε α)) (i : Nat) : Nat :=
  t0 + (((tasks.take (i + 1)).map TaskSpec.dur).sum)

/-- Closed form of the serialized pipeline: starting at `t0`, each task runs
alone, back to back, and settles with its own outcome. -/
def serialOutputs (t0 : Nat) : List (TaskSpec ε α) → List (Settled ε α)
  | [] => []
  | ts :: rest => (t0 + ts.dur, ts.res) :: serialOutputs (t0 + ts.dur) rest

/-! ### Errors, notifications and the orchestrator
(`FiatAutomationService`, `WebhookService`) -/

/-- Failure taxonomy of the automation layer: `TwoFactorRequiredError`
(step-up needed) versus every other `Error` (structural automation
failure, carrying its message). -/
inductive AutomationError where
  | twoFactorRequired
  | automationFailure (message : String)
  deriving Repr, DecidableEq

/-- Events delivered to the Notifier by `WebhookService`. -/
inductive FiatEvent where
  | qrGenerated (orderId : String) (image : String)
  | verificationResult (orderId : String) (success : Bool)
  | login2faRequired
  deriving Repr, DecidableEq

/-- `FiatAutomationService.handleAutomationError(error)`: a
`TwoFactorRequiredError` produces one `LOGIN_2FA_REQUIRED` webhook event;
every other error is only logged — no webhook event is sent for it. -/
def handleAutomationError (e : AutomationError) : List FiatEvent :=
  match e with
  | .twoFactorRequired => [.login2faRequired]
  | .automationFailure _ => []

/-- `FiatAutomationService.withTimeout(promise, timeoutMs)`:
`Promise.race([promise, timer resolving null at timeoutMs])`.  The timer
wins when it fires strictly before the task settles, yielding `null`;
otherwise the race settles exactly like the task (its value wrapped in
`some`, or its rejection). -/
def withTimeout (task : Settled ε α) (timeoutMs : Nat) :
    Except ε (Option α) :=
  if timeoutMs < task.1 then Except.ok none
  else
    match task.2 with
    | Except.ok a => Except.ok (some a)
    | Except.error e => Except.error e

/-- Result of one deadline-bound orchestrator call: the value returned (or
`ConflictException` thrown) to the immediate caller, the webhook events this
call emits, whether the underlying task was appended to the pipeline (once
appended nothing ever cancels it — `withTimeout` races without interrupting
the task, which settles with its own outcome regardless), and the job-queue
state after the call. -/
structure OrchestratorResult (α : Type) where
  response : Except EnqueueError (Option α)
  events : List FiatEvent
  taskScheduled : Bool
  state : JobQueueState

/-- `FiatAutomationService.generateQrWithTimeout(amount, details, orderId,
timeoutMs)`: register via `tryRegisterQrJob` (throwing `ConflictException`
on duplicate, before any task exists); on success enqueue the bare
`browserService.generateQr` call — whose settled future is `taskSettle` —
and race it against the deadline.  The `catch` block classifies the error
through `handleAutomationError` and returns `null` instead of re-throwing.
No webhook event is chained onto the task itself: `sendQrGenerated` is
called only by `processGenerateQr`, which this path never invokes. -/
def generateQrWithTimeout (st : JobQueueState) (now : Nat)
    (orderId details taskId : String) (taskSettle : Settled AutomationError String)
    (timeoutMs : Nat) : OrchestratorResult String :=
  if (tryRegisterQrJob st now orderId details).1 then
    match withTimeout taskSettle timeoutMs with
    | Except.ok v =>
        ⟨Except.ok v, [], true,
          { (tryRegisterQrJob st now orderId details).2 with
            pipeline :=
              (tryRegisterQrJob st now orderId details).2.pipeline ++ [taskId] }⟩
    | Except.error e =>
        ⟨Except.ok none, handleAutomationError e, true,
          { (tryRegisterQrJob st now orderId details).2 with
            pipeline :=
              (tryRegisterQrJob st now orderId details).2.pipeline ++ [taskId] }⟩
  else
    ⟨Except.error (.conflict orderId details), [], false,
      (tryRegisterQrJob st now orderId details).2⟩

/-- `FiatAutomationService.verifyPaymentInline(dto, timeoutMs)`: enqueue the
verification task (no dedup), race against the deadline, and return
`Boolean(result)` — so the `null` timeout indicator becomes `false`; the
`catch` block classifies the error and returns `false` instead of
re-throwing. -/
def verifyPaymentInline (taskSettle : Settled AutomationError Bool)
    (timeoutMs : Nat) : Bool × List FiatEvent :=
  match withTimeout taskSettle timeoutMs with
  | Except.ok (some b) => (b, [])
  | Except.ok none => (false, [])
  | Except.error e => (false, handleAutomationError e)

/-- `FiatAutomationService.processGenerateQr(dto)`: run the browser QR flow;
on success send `QR_GENERATED` to the Notifier; on failure classify the
error through `handleAutomationError` and re-throw it.  `browserOutcome`
is the outcome of `browserService.generateQr` (the produced image on
success). -/
def processGenerateQr (orderId : String)
    (browserOutcome : Except AutomationError String) :
    Except AutomationError Unit × List FiatEvent :=
  match browserOutcome with
  | Except.ok qr => (Except.ok (), [.qrGenerated orderId qr])
  | Except.error e => (Except.error e, handleAutomationError e)

/-- The `.catch` handler attached by `FiatService.queueGenerateQr` when the
queued job's promise settles: `logAsyncError` only writes log lines — the
job-queue state (dedup map and pipeline) is not touched by either branch.
Returns the state after settlement together with the log lines written. -/
def settleQueuedQrJob (st : JobQueueState)
    (outcome : Except AutomationError Unit) : JobQueueState × List String :=
  match outcome with
  | Except.ok _ => (st, [])
  | Except.error _ => (st, ["QR generation job failed"])

/-! ### Browser session manager (`FiatBrowserService`) -/

/-- `sub.isPrefixOf s` over character lists, by plain recursion. -/
def isPrefixList : List Char → List Char → Bool
  | [], _ => true
  | _ :: _, [] => false
  | a :: as, b :: bs => a = b && isPrefixList as bs

/-- JS `String.prototype.includes`: substring containment. -/
def jsIncludes (s sub : String) : Bool :=
  go s.data
where
  go : List Char → Bool
    | [] => isPrefixList sub.data []
    | c :: cs => isPrefixList sub.data (c :: cs) || go cs

/-- `FiatBrowserService.handleTwoFactor(page)`: if the step-up input is not
visible, return; if it is and the store has no code, throw
`TwoFactorRequiredError` (the store is left untouched and nothing retries);
otherwise consume the code destructively and submit it.  Returns the flow
outcome and the credential-store slot after the call. -/
def handleTwoFactor (needsTwoFa : Bool) (store : Option String) :
    Except AutomationError Unit × Option String :=
  if !needsTwoFa then (Except.ok (), store)
  else if !hasCode store then (Except.error .twoFactorRequired, store)
  else
    let r := consumeCode store
    match r.1 with
    | none => (Except.error .twoFactorRequired, r.2)
    | some c =>
        if c = "" then (Except.error .twoFactorRequired, r.2)
        else (Except.ok (), r.2)

/-- `FiatBrowserService.generateQr` as seen through `ensureSession`: when
the login logo is visible the login sub-flow runs, and a failure of
`handleTwoFactor` propagates out of `generateQr`; otherwise (or after a
successful login) the rest of the QR flow produces `qrOutcome`. -/
def generateQrViaSession (loginVisible needsTwoFa : Bool)
    (store : Option String) (qrOutcome : Except AutomationError String) :
    Except AutomationError String × Option String :=
  if loginVisible then
    let r := handleTwoFactor needsTwoFa store
    match r.1 with
    | Except.error e => (Except.error e, r.2)
    | Except.ok _ => (qrOutcome, r.2)
  else (qrOutcome, store)

/-- What `FiatBrowserService.verifyPayment` observes on the page: whether
each structural element materialized within its timeout, and the raw
`innerText` of the glosa cell when it did. -/
structure VerifyObservation where
  movementVisible : Bool
  receiptModalVisible : Bool
  glosaRowVisible : Bool
  glosaText : String

/-- `FiatBrowserService.verifyPayment(details)`: each `waitFor` throws (an
`AutomationFailure`) when its element does not materialize within its
timeout; otherwise the trimmed glosa text is matched — the result is `true`
exactly when it contains both the literal `"BM QR"` marker and `details`,
and a non-match is the normal result `false`, not an error. -/
def verifyPayment (obs : VerifyObservation) (details : String) :
    Except AutomationError Bool :=
  if !obs.movementVisible then
    Except.error (.automationFailure "mov-1 not visible")
  else if !obs.receiptModalVisible then
    Except.error (.automationFailure "cotenidoComprobante not visible")
  else if !obs.glosaRowVisible then
    Except.error (.automationFailure "glosa row not visible")
  else
    let glosaValue := jsTrim obs.glosaText
    Except.ok (jsIncludes glosaValue "BM QR" && jsIncludes glosaValue details)

/-- The launch-failure error thrown by `ensureBrowser`'s catch block
(`"No se pudo iniciar el navegador…"`). -/
def launchFailureMessage : String := "SessionLaunchFailure"

/-- Session fields of `FiatBrowserService`: `browser` (with its
`isConnected()` flag), `context`, `page` (with its `isClosed()` flag), and
`initializing` — the cached launch promise, embedded by the settled result
it holds (`none` when the field is `undefined`). -/
structure BrowserState where
  browser : Option Bool
  context : Bool
  page : Option Bool
  initializing : Option (Except String Unit)
  deriving Repr

/-- The state at service construction: no session, nothing in flight. -/
def freshBrowserState : BrowserState :=
  ⟨none, false, none, none⟩

/-- `FiatBrowserService.isBrowserActive()`: false when `browser` or
`context` is null, else `browser.isConnected()`. -/
def isBrowserActive (st : BrowserState) : Bool :=
  match st.browser with
  | none => false
  | some connected => st.context && connected

/-- `FiatBrowserService.resetBrowserState()`: null out `page`, `context`
and `browser` — `initializing` is not touched. -/
def resetBrowserState (st : BrowserState) : BrowserState :=
  { st with page := none, context := false, browser := none }

/-- One sequential call to `FiatBrowserService.ensureBrowser()`, with
`launch` the outcome `chromium.launch` + `newContext` would have on this
call.  If a session is active, return.  If `initializing` holds a promise,
await it: a cached rejection re-throws and the code after the await —
including the `initializing = undefined` reset — never runs.  Otherwise
run the launch: on success install the session and clear `initializing`;
on failure the catch runs `resetBrowserState` and re-throws, so the
`initializing = undefined` line is skipped and the rejected promise stays
cached. -/
def ensureBrowser (st : BrowserState) (launch : Except String Unit) :
    Except String Unit × BrowserState :=
  if isBrowserActive st then (Except.ok (), st)
  else
    match st.initializing with
    | some cached => (cached, st)
    | none =>
        match launch with
        | Except.ok _ =>
            (Except.ok (),
             { st with browser := some true, context := true, initializing := none })
        | Except.error _ =>
            let st' := resetBrowserState st
            (Except.error launchFailureMessage,
             { st' with initializing := some (Except.error launchFailureMessage) })

/-! ## Theorems -/

/-- The promise chain built by `enqueue` computes exactly the serialized
schedule: with the tail resolved at `t0`, each task starts when its
predecessor settles and settles with its own outcome. -/
theorem runQueue_eq_serialOutputs (t0 : Nat) (tasks : List (TaskSpec ε α)) :
    runQueue (t0, Except.ok ()) tasks = serialOutputs t0 tasks := by
  induction tasks generalizing t0 with
  | nil => rfl
  | cons ts rest ih =>
      simp [runQueue, serialOutputs, enqueueStep, thenFulfilled, thenSettled,
        taskFuture, ih]

/-- Element form of the serialized schedule: the `i`-th queued task settles
at `settleTime t0 tasks i` with its own outcome. -/
theorem serialOutputs_getElem? (t0 : Nat) (tasks : List (TaskSpec ε α)) (i : Nat) :
    (serialOutputs t0 tasks)[i]? =
      tasks[i]?.map (fun ts => (settleTime t0 tasks i, ts.res)) := by
  induction tasks generalizing t0 i with
  | nil => simp [serialOutputs]
  | cons ts rest ih =>
      cases i with
      | zero => simp [serialOutputs, settleTime]
      | succ n =>
          simp [serialOutputs, ih, settleTime, List.take_succ_cons, Nat.add_assoc]

/-- Prefix sums of durations are monotone in the prefix length. -/
theorem take_map_sum_mono (f : TaskSpec ε α → Nat) (l : List (TaskSpec ε α))
    {i j : Nat} (h : i ≤ j) :
    ((l.take i).map f).sum ≤ ((l.take j).map f).sum := by
  have hj : l.take j = l.take i ++ (l.drop i).take (j - i) := by
    rw [← List.take_add]
    congr 1
    omega
  rw [hj, List.map_append, List.sum_append]
  exact Nat.le_add_right _ _

/-- Settle times depend only on the tasks' durations, never on their
outcomes. -/
theorem serialOutputs_map_fst (t0 : Nat) (tasks tasks' : List (TaskSpec ε α))
    (h : tasks.map TaskSpec.dur = tasks'.map TaskSpec.dur) :
    (serialOutputs t0 tasks).map Prod.fst =
      (serialOutputs t0 tasks').map Prod.fst := by
  induction tasks generalizing t0 tasks' with
  | nil =>
      cases tasks' with
      | nil => rfl
      | cons a l => simp at h
  | cons ts rest ih =>
      cases tasks' with
      | nil => simp at h
      | cons ts' rest' =>
          simp only [List.map_cons, List.cons.injEq] at h
          simp [serialOutputs, h.1, ih _ rest' h.2]

/-- C4: the single pipeline serializes queued tasks.  For every task list:
(1) the future returned to the `i`-th caller settles at `settleTime 0 tasks i`
with that task's own outcome (so a rejection reaches only its own caller);
(2) settle times are monotone in submission order; (3) task `i + 1` settles
exactly `dur` after task `i` settles — it starts only once its predecessor
has settled, so at most one task runs at a time; (4) the settle times are
unchanged when outcomes change (same durations), so a task's failure never
blocks or delays the tasks after it. -/
theorem claim4_pipeline_serializes (tasks tasks' : List (TaskSpec ε α))
    (i j : Nat) (hij : i ≤ j)
    (hdur : tasks.map TaskSpec.dur = tasks'.map TaskSpec.dur) :
    (runQueue (initialTail ε) tasks)[i]? =
        tasks[i]?.map (fun ts => (settleTime 0 tasks i, ts.res)) ∧
    settleTime 0 tasks i ≤ settleTime 0 tasks j ∧
    (∀ ts, tasks[i + 1]? = some ts →
        settleTime 0 tasks (i + 1) = settleTime 0 tasks i + ts.dur) ∧
    (runQueue (initialTail ε) tasks).map Prod.fst =
        (runQueue (initialTail ε) tasks').map Prod.fst := by
  refine ⟨?_, ?_, ?_, ?_⟩
  · rw [show initialTail ε = ((0 : Nat), Except.ok ()) from rfl,
      runQueue_eq_serialOutputs]
    exact serialOutputs_getElem? 0 tasks i
  · unfold settleTime
    exact Nat.add_le_add_left (take_map_sum_mono TaskSpec.dur tasks (by omega)) 0
  · intro ts hts
    unfold settleTime
    rw [List.take_succ, hts]
    simp [Nat.add_assoc]
  · rw [show initialTail ε = ((0 : Nat), Except.ok ()) from rfl,
      runQueue_eq_serialOutputs, runQueue_eq_serialOutputs]
    exact serialOutputs_map_fst 0 tasks tasks' hdur

/-- C4 witness: a three-task pipeline where the middle task rejects — its
caller sees the rejection at time 5, the third caller still gets its own
result, and replacing every outcome by successes leaves all settle times
unchanged. -/
theorem claim4_witness :
    (runQueue (initialTail String)
        [⟨2, Except.ok 10⟩, ⟨3, Except.error "boom"⟩, ⟨1, Except.ok 20⟩])[1]? =
      some (5, Except.error "boom") ∧
    (runQueue (initialTail String)
        [⟨2, Except.ok 10⟩, ⟨3, Except.error "boom"⟩, ⟨1, Except.ok 20⟩]).map
        Prod.fst =
      (runQueue (initialTail String)
        [⟨2, Except.ok (10 : Nat)⟩, ⟨3, Except.ok 0⟩, ⟨1, Except.ok 20⟩]).map
        Prod.fst := by
  have h := claim4_pipeline_serializes
    [⟨2, Except.ok 10⟩, ⟨3, Except.error "boom"⟩, ⟨1, Except.ok 20⟩]
    [⟨2, Except.ok (10 : Nat)⟩, ⟨3, Except.ok 0⟩, ⟨1, Except.ok 20⟩]
    1 2 (by omega) rfl
  refine ⟨?_, h.2.2.2⟩
  rw [h.1]
  rfl

/-- The swept map of `isDuplicate` is exactly the expiry sweep. -/
theorem isDuplicate_snd (jobs : JobMap) (now : Nat) (orderId details : String) :
    (isDuplicate jobs now orderId details).2 = sweepExpired now jobs := rfl

/-- An unexpired record survives the expiry sweep. -/
theorem mem_sweepExpired {now : Nat} {jobs : JobMap} {kv : String × QrJobRecord}
    (h : kv ∈ jobs) (hfresh : now - kv.2.timestamp ≤ JOB_EXPIRY_MS) :
    kv ∈ sweepExpired now jobs := by
  simp only [sweepExpired, List.mem_filter, h, true_and, decide_eq_true_eq]
  exact hfresh

/-- Members of the swept map come from the original map and are unexpired. -/
theorem of_mem_sweepExpired {now : Nat} {jobs : JobMap} {kv : String × QrJobRecord}
    (h : kv ∈ sweepExpired now jobs) :
    kv ∈ jobs ∧ now - kv.2.timestamp ≤ JOB_EXPIRY_MS := by
  simpa [sweepExpired, List.mem_filter] using h

/-- `Map.set` under a different key preserves an entry. -/
theorem mem_mapSet_of_ne {jobs : JobMap} {k' : String} {v : QrJobRecord}
    {k : String} {r : QrJobRecord} (hne : k ≠ k') (h : (k, r) ∈ jobs) :
    (k, r) ∈ mapSet jobs k' v := by
  unfold mapSet
  split
  · exact List.mem_map.mpr ⟨(k, r), h, by simp [hne]⟩
  · exact List.mem_append_left _ h

/-- An entry of `Map.set jobs k' v` is an old entry or the new binding. -/
theorem of_mem_mapSet {jobs : JobMap} {k' : String} {v : QrJobRecord}
    {kv : String × QrJobRecord} (h : kv ∈ mapSet jobs k' v) :
    kv ∈ jobs ∨ kv = (k', v) := by
  unfold mapSet at h
  split at h
  · rcases List.mem_map.mp h with ⟨a, ha, hEq⟩
    by_cases hak : a.1 = k'
    · right
      rw [← hEq]
      simp [hak]
    · left
      rw [← hEq]
      simpa [hak] using ha
  · rcases List.mem_append.mp h with h1 | h1
    · exact Or.inl h1
    · exact Or.inr (by simpa using h1)

/-- A matching unexpired record makes `isDuplicate` fire. -/
theorem isDuplicate_of_matching_mem {jobs : JobMap} {now : Nat}
    (orderId details : String) {k : String} {r : QrJobRecord}
    (h : (k, r) ∈ jobs) (hfresh : now - r.timestamp ≤ JOB_EXPIRY_MS)
    (hmatch : orderId = k ∨ details = r.details) :
    (isDuplicate jobs now orderId details).1 = true := by
  have hs : (k, r) ∈ sweepExpired now jobs := mem_sweepExpired h hfresh
  unfold isDuplicate
  simp only [Bool.or_eq_true, List.any_eq_true]
  rcases hmatch with hm | hm
  · exact Or.inl ⟨(k, r), hs, by simp [hm]⟩
  · exact Or.inr ⟨(k, r), hs, by simp [hm]⟩

/-- A matching unexpired record makes `tryRegisterQrJob` refuse. -/
theorem tryRegisterQrJob_blocked {st : JobQueueState} (now : Nat)
    (orderId details : String) {k : String} {r : QrJobRecord}
    (h : (k, r) ∈ st.processedJobs) (hfresh : now ≤ r.timestamp + JOB_EXPIRY_MS)
    (hmatch : orderId = k ∨ details = r.details) :
    (tryRegisterQrJob st now orderId details).1 = false := by
  have hd := isDuplicate_of_matching_mem orderId details h
    (show now - r.timestamp ≤ JOB_EXPIRY_MS by omega) hmatch
  unfold tryRegisterQrJob
  simp [hd]

/-- A registration attempt never deletes an unexpired record. -/
theorem tryRegisterQrJob_preserves {st : JobQueueState} (now : Nat)
    (orderId details : String) {k : String} {r : QrJobRecord}
    (h : (k, r) ∈ st.processedJobs) (hfresh : now ≤ r.timestamp + JOB_EXPIRY_MS) :
    (k, r) ∈ (tryRegisterQrJob st now orderId details).2.processedJobs := by
  have hs : (k, r) ∈ sweepExpired now st.processedJobs :=
    mem_sweepExpired h (show now - r.timestamp ≤ JOB_EXPIRY_MS by omega)
  unfold tryRegisterQrJob
  by_cases hd : (isDuplicate st.processedJobs now orderId details).1 = true
  · rw [if_pos hd]
    simpa [isDuplicate_snd] using hs
  · have hne : k ≠ orderId := by
      intro hk
      exact hd (isDuplicate_of_matching_mem orderId details h
        (show now - r.timestamp ≤ JOB_EXPIRY_MS by omega) (Or.inl hk.symm))
    rw [if_neg hd]
    simp only [isDuplicate_snd, registerJob]
    exact mem_mapSet_of_ne hne hs

/-- An exclusive enqueue call never deletes an unexpired record. -/
theorem enqueueQrJob_preserves {st : JobQueueState} (now : Nat)
    (orderId details taskId : String) {k : String} {r : QrJobRecord}
    (h : (k, r) ∈ st.processedJobs) (hfresh : now ≤ r.timestamp + JOB_EXPIRY_MS) :
    (k, r) ∈ (enqueueQrJob st now orderId details taskId).2.processedJobs := by
  have hp := tryRegisterQrJob_preserves now orderId details h hfresh
  unfold enqueueQrJob
  by_cases hr : (tryRegisterQrJob st now orderId details).1 = true
  · rw [if_pos hr]
    exact hp
  · rw [if_neg hr]
    exact hp

/-- An unexpired record survives any sequence of exclusive enqueue calls
whose clock readings stay inside its 24h window. -/
theorem runQrCalls_preserves {st : JobQueueState} {k : String} {r : QrJobRecord}
    (cs : List QrCall) (h : (k, r) ∈ st.processedJobs)
    (hcs : ∀ c ∈ cs, c.now ≤ r.timestamp + JOB_EXPIRY_MS) :
    (k, r) ∈ (runQrCalls st cs).processedJobs := by
  induction cs generalizing st with
  | nil => exact h
  | cons c rest ih =>
      exact ih (enqueueQrJob_preserves c.now c.orderId c.details c.taskId h
          (hcs c (List.mem_cons_self c rest)))
        (fun m hm => hcs m (List.mem_cons_of_mem c hm))

/-- A successful registration leaves its own record in the map, stamped with
the registration clock. -/
theorem tryRegisterQrJob_mem_of_true {st : JobQueueState} {now : Nat}
    {orderId details : String}
    (h : (tryRegisterQrJob st now orderId details).1 = true) :
    (orderId, ⟨orderId, details, now⟩) ∈
      (tryRegisterQrJob st now orderId details).2.processedJobs := by
  by_cases hd : (isDuplicate st.processedJobs now orderId details).1 = true
  · exfalso
    unfold tryRegisterQrJob at h
    rw [if_pos hd] at h
    exact Bool.false_ne_true h
  · have hhas : mapHas (sweepExpired now st.processedJobs) orderId = false := by
      by_contra hc
      rcases List.any_eq_true.mp (Bool.not_eq_false _ ▸ hc) with ⟨kv, hkv, hk⟩
      exact hd (by
        unfold isDuplicate
        simp only [Bool.or_eq_true, List.any_eq_true]
        exact Or.inl ⟨kv, hkv, hk⟩)
    unfold tryRegisterQrJob
    rw [if_neg hd]
    simp only [isDuplicate_snd, registerJob, mapSet, hhas, Bool.false_eq_true,
      if_false]
    exact List.mem_append_right _ (List.mem_singleton.mpr rfl)

/-- A registration attempt never touches the pipeline. -/
theorem tryRegisterQrJob_pipeline (st : JobQueueState) (now : Nat)
    (orderId details : String) :
    (tryRegisterQrJob st now orderId details).2.pipeline = st.pipeline := by
  unfold tryRegisterQrJob
  by_cases hd : (isDuplicate st.processedJobs now orderId details).1 = true
  · rw [if_pos hd]
  · rw [if_neg hd]

/-- `enqueueQrJob` returns `ok` exactly when registration succeeded. -/
theorem enqueueQrJob_ok_iff {st : JobQueueState} {now : Nat}
    {orderId details taskId : String} :
    (enqueueQrJob st now orderId details taskId).1 = Except.ok () ↔
      (tryRegisterQrJob st now orderId details).1 = true := by
  unfold enqueueQrJob
  by_cases hr : (tryRegisterQrJob st now orderId details).1 = true
  · simp [hr]
  · simp [hr]

/-- `enqueueQrJob` changes the dedup map exactly as registration does. -/
theorem enqueueQrJob_processedJobs (st : JobQueueState) (now : Nat)
    (orderId details taskId : String) :
    (enqueueQrJob st now orderId details taskId).2.processedJobs =
      (tryRegisterQrJob st now orderId details).2.processedJobs := by
  unfold enqueueQrJob
  by_cases hr : (tryRegisterQrJob st now orderId details).1 = true
  · rw [if_pos hr]
  · rw [if_neg hr]

/-- When registration is refused, `enqueueQrJob` throws `ConflictException`
and the pipeline is untouched: the duplicate task is never scheduled. -/
theorem enqueueQrJob_blocked {st : JobQueueState} {now : Nat}
    {orderId details taskId : String}
    (h : (tryRegisterQrJob st now orderId details).1 = false) :
    (enqueueQrJob st now orderId details taskId).1 =
        Except.error (.conflict orderId details) ∧
      (enqueueQrJob st now orderId details taskId).2.pipeline = st.pipeline := by
  unfold enqueueQrJob
  rw [if_neg (by simp [h])]
  exact ⟨rfl, tryRegisterQrJob_pipeline st now orderId details⟩

/-- C7: `consumeCode` is a destructive read of the single credential slot —
it returns the currently stored code and immediately clears the slot, so a
second `consumeCode` made immediately after any call (in particular one
that returned a non-null code) returns null.  Nothing between consumption
and the portal's verdict writes the slot back, so the result is independent
of whether the code was later accepted. -/
theorem claim7_consumeCode_destructive_read (st : Option String) :
    (consumeCode st).1 = st ∧ (consumeCode st).2 = none ∧
      (consumeCode (consumeCode st).2).1 = none :=
  ⟨rfl, rfl, rfl⟩

/-- C8 counterexample: with every structural wait succeeding and the latest
movement's glosa equal to `"GLOSA-1"`, the memo does contain the expected
details `"GLOSA-1"` as a substring, yet `verifyPayment` returns `ok false` —
the code additionally requires the literal `"BM QR"` marker, so the claim
"returns true exactly when the memo contains the expected details value"
fails. -/
theorem claim8_counterexample :
    jsIncludes "GLOSA-1" "GLOSA-1" = true ∧
      verifyPayment ⟨true, true, true, "GLOSA-1"⟩ "GLOSA-1" = Except.ok false := by
  constructor
  · rfl
  · rfl

/-- C8 (amended): when the verification run reaches the receipt panel (all
structural waits succeed), `verifyPayment` returns `true` exactly when the
trimmed glosa contains both the literal `"BM QR"` marker and the expected
details value as substrings, and a non-match is the normal result `false`,
not an error; a structural failure (the movement button not materializing)
raises an `AutomationFailure` instead. -/
theorem claim8_verifyPayment_match (obs : VerifyObservation) (details : String) :
    (obs.movementVisible = true → obs.receiptModalVisible = true →
      obs.glosaRowVisible = true →
      verifyPayment obs details =
        Except.ok (jsIncludes (jsTrim obs.glosaText) "BM QR" &&
          jsIncludes (jsTrim obs.glosaText) details)) ∧
    (obs.movementVisible = false →
      verifyPayment obs details =
        Except.error (.automationFailure "mov-1 not visible")) := by
  constructor
  · intro hm hr hg
    simp [verifyPayment, hm, hr, hg]
  · intro hm
    simp [verifyPayment, hm]

/-- C8 witness: a concrete run where the glosa holds both the marker and
the details, evaluated through the amended theorem. -/
theorem claim8_witness :
    verifyPayment ⟨true, true, true, " BM QR GLOSA-1 "⟩ "GLOSA-1" =
      Except.ok true := by
  have h := (claim8_verifyPayment_match ⟨true, true, true, " BM QR GLOSA-1 "⟩
    "GLOSA-1").1 rfl rfl rfl
  simpa using h

/-- C9: after a failed launch, `ensureBrowser` does tear the session fields
down (`browser`, `context`, `page` are nulled), but the `initializing`
field keeps the rejected launch promise: the assignment clearing it sits
after the `await` that re-throws.  A second call — even with a launcher
that would now succeed — therefore awaits the cached rejection and
re-throws the old failure without performing a fresh launch (the session
stays `browser = none`), contradicting "the next attempt starts from a
clean state and performs a fresh launch". -/
theorem claim9_stale_initializing_blocks_relaunch :
    (ensureBrowser freshBrowserState (Except.error "spawn failed")).1 =
        Except.error launchFailureMessage ∧
    (ensureBrowser freshBrowserState (Except.error "spawn failed")).2.browser = none ∧
    (ensureBrowser freshBrowserState (Except.error "spawn failed")).2.context = false ∧
    (ensureBrowser freshBrowserState (Except.error "spawn failed")).2.page = none ∧
    (ensureBrowser freshBrowserState (Except.error "spawn failed")).2.initializing =
        some (Except.error launchFailureMessage) ∧
    (ensureBrowser (ensureBrowser freshBrowserState (Except.error "spawn failed")).2
        (Except.ok ())).1 = Except.error launchFailureMessage ∧
    (ensureBrowser (ensureBrowser freshBrowserState (Except.error "spawn failed")).2
        (Except.ok ())).2.browser = none :=
  ⟨rfl, rfl, rfl, rfl, rfl, rfl, rfl⟩

/-- C1: in any sequence of exclusive QR enqueue calls, once a call `c`
succeeded, every later call `c'` that shares its orderId (business key) or
its details (secondary key) while `c`'s registration is unexpired
(`c'.now ≤ c.now + 24h`, with the intermediate calls' clocks also inside
the window) fails synchronously with `ConflictException` and leaves the
pipeline untouched — the duplicate task is never scheduled.  Hence among
calls sharing a key within the window, only the first can ever append a
task: at most one underlying task is scheduled. -/
theorem claim1_duplicate_never_scheduled (st0 : JobQueueState) (c : QrCall)
    (mid : List QrCall) (c' : QrCall)
    (hok : (enqueueQrJob st0 c.now c.orderId c.details c.taskId).1 = Except.ok ())
    (hmid : ∀ m ∈ mid, m.now ≤ c.now + JOB_EXPIRY_MS)
    (hlate : c'.now ≤ c.now + JOB_EXPIRY_MS)
    (hshare : c'.orderId = c.orderId ∨ c'.details = c.details) :
    (enqueueQrJob
        (runQrCalls (enqueueQrJob st0 c.now c.orderId c.details c.taskId).2 mid)
        c'.now c'.orderId c'.details c'.taskId).1 =
      Except.error (EnqueueError.conflict c'.orderId c'.details) ∧
    (enqueueQrJob
        (runQrCalls (enqueueQrJob st0 c.now c.orderId c.details c.taskId).2 mid)
        c'.now c'.orderId c'.details c'.taskId).2.pipeline =
      (runQrCalls (enqueueQrJob st0 c.now c.orderId c.details c.taskId).2
        mid).pipeline := by
  have hreg : (tryRegisterQrJob st0 c.now c.orderId c.details).1 = true :=
    enqueueQrJob_ok_iff.mp hok
  have hmem1 : (c.orderId, ⟨c.orderId, c.details, c.now⟩) ∈
      (enqueueQrJob st0 c.now c.orderId c.details c.taskId).2.processedJobs := by
    rw [enqueueQrJob_processedJobs]
    exact tryRegisterQrJob_mem_of_true hreg
  have hmem2 : (c.orderId, ⟨c.orderId, c.details, c.now⟩) ∈
      (runQrCalls (enqueueQrJob st0 c.now c.orderId c.details c.taskId).2
        mid).processedJobs :=
    runQrCalls_preserves mid hmem1 hmid
  have hblock := tryRegisterQrJob_blocked c'.now c'.orderId c'.details hmem2
    hlate hshare
  exact enqueueQrJob_blocked hblock

/-- C1 witness: `register("ORD-1","GLOSA-A")` succeeds at time 0; the call
`register("ORD-1","GLOSA-B")` at time 5 fails with `ConflictException` and
schedules nothing — the pipeline still holds only the first task. -/
theorem claim1_witness :
    (enqueueQrJob
        (runQrCalls (enqueueQrJob ⟨[], []⟩ 0 "ORD-1" "GLOSA-A" "t1").2 [])
        5 "ORD-1" "GLOSA-B" "t2").1 =
      Except.error (EnqueueError.conflict "ORD-1" "GLOSA-B") ∧
    (enqueueQrJob
        (runQrCalls (enqueueQrJob ⟨[], []⟩ 0 "ORD-1" "GLOSA-A" "t1").2 [])
        5 "ORD-1" "GLOSA-B" "t2").2.pipeline = ["t1"] := by
  have h := claim1_duplicate_never_scheduled ⟨[], []⟩ ⟨0, "ORD-1", "GLOSA-A", "t1"⟩
    [] ⟨5, "ORD-1", "GLOSA-B", "t2"⟩ rfl
    (by intro m hm; exact absurd hm (List.not_mem_nil m))
    (by decide) (Or.inl rfl)
  refine ⟨h.1, ?_⟩
  rw [h.2]
  rfl

/-- C6: the expiry sweep runs inline inside every registration attempt:
(1) when every record matching the new key (same orderId or same details)
is older than 24 hours, registration succeeds — an expired record never
blocks; (2) a matching record at most 24 hours old blocks the
registration; (3) after any registration attempt the map holds no record
older than 24 hours (the sweep ran before the duplicate check, with no
background timer involved). -/
theorem claim6_inline_expiry_sweep (st : JobQueueState) (now : Nat)
    (orderId details : String) :
    ((∀ kv ∈ st.processedJobs, (kv.1 = orderId ∨ kv.2.details = details) →
        kv.2.timestamp + JOB_EXPIRY_MS < now) →
      (tryRegisterQrJob st now orderId details).1 = true) ∧
    (∀ kv ∈ st.processedJobs, (kv.1 = orderId ∨ kv.2.details = details) →
        now ≤ kv.2.timestamp + JOB_EXPIRY_MS →
      (tryRegisterQrJob st now orderId details).1 = false) ∧
    (∀ kv ∈ (tryRegisterQrJob st now orderId details).2.processedJobs,
      now - kv.2.timestamp ≤ JOB_EXPIRY_MS) := by
  refine ⟨?_, ?_, ?_⟩
  · intro hall
    have h1 : (sweepExpired now st.processedJobs).any
        (fun kv => kv.1 = orderId) = false := by
      rw [List.any_eq_false]
      intro kv hkv
      rcases of_mem_sweepExpired hkv with ⟨hmem, hfr⟩
      simp only [decide_eq_true_eq]
      intro hk
      have := hall kv hmem (Or.inl hk)
      omega
    have h2 : (sweepExpired now st.processedJobs).any
        (fun kv => kv.2.details = details) = false := by
      rw [List.any_eq_false]
      intro kv hkv
      rcases of_mem_sweepExpired hkv with ⟨hmem, hfr⟩
      simp only [decide_eq_true_eq]
      intro hk
      have := hall kv hmem (Or.inr hk)
      omega
    have hdup : (isDuplicate st.processedJobs now orderId details).1 = false := by
      unfold isDuplicate
      simp [h1, h2]
    unfold tryRegisterQrJob
    rw [if_neg (by simp [hdup])]
  · rintro ⟨k, r⟩ hkv hmatch hfresh
    refine tryRegisterQrJob_blocked now orderId details hkv hfresh ?_
    rcases hmatch with hm | hm
    · exact Or.inl hm.symm
    · exact Or.inr hm.symm
  · intro kv hkv
    by_cases hd : (isDuplicate st.processedJobs now orderId details).1 = true
    · unfold tryRegisterQrJob at hkv
      rw [if_pos hd] at hkv
      simp only [isDuplicate_snd] at hkv
      exact (of_mem_sweepExpired hkv).2
    · unfold tryRegisterQrJob at hkv
      rw [if_neg hd] at hkv
      simp only [isDuplicate_snd, registerJob] at hkv
      rcases of_mem_mapSet hkv with hold | hnew
      · exact (of_mem_sweepExpired hold).2
      · rw [hnew]
        simp

/-- C6 witness: a record stamped at time 0 no longer blocks reusing
`"ORD-1"` at time `24h + 1ms`, while at time `24h` exactly it still blocks
a registration sharing the orderId. -/
theorem claim6_witness :
    (tryRegisterQrJob ⟨[("ORD-1", ⟨"ORD-1", "GLOSA-A", 0⟩)], []⟩
        (JOB_EXPIRY_MS + 1) "ORD-1" "GLOSA-A").1 = true ∧
    (tryRegisterQrJob ⟨[("ORD-1", ⟨"ORD-1", "GLOSA-A", 0⟩)], []⟩
        JOB_EXPIRY_MS "ORD-1" "GLOSA-B").1 = false := by
  constructor
  · refine (claim6_inline_expiry_sweep ⟨[("ORD-1", ⟨"ORD-1", "GLOSA-A", 0⟩)], []⟩
      (JOB_EXPIRY_MS + 1) "ORD-1" "GLOSA-A").1 ?_
    intro kv hkv hm
    rcases List.mem_singleton.mp hkv with rfl
    simp [JOB_EXPIRY_MS]
  · exact (claim6_inline_expiry_sweep ⟨[("ORD-1", ⟨"ORD-1", "GLOSA-A", 0⟩)], []⟩
      JOB_EXPIRY_MS "ORD-1" "GLOSA-B").2.1 ("ORD-1", ⟨"ORD-1", "GLOSA-A", 0⟩)
      (List.mem_singleton.mpr rfl) (Or.inl rfl) (by omega)

/-- C10: a successful registration is never rolled back by its task's
failure.  Once `tryRegisterQrJob` accepted `(orderId, details)` and the
task was queued, settling the queued job — with any outcome, in particular
a rejection handled by `queueGenerateQr`'s log-only `.catch` — leaves the
whole job-queue state unchanged, and a re-registration sharing the orderId
or the details within the 24h window still fails as a duplicate. -/
theorem claim10_registration_survives_task_failure (st : JobQueueState)
    (now now' : Nat) (orderId details taskId oid' d' t' : String)
    (outcome : Except AutomationError Unit)
    (hreg : (tryRegisterQrJob st now orderId details).1 = true)
    (hwin : now' ≤ now + JOB_EXPIRY_MS)
    (hshare : oid' = orderId ∨ d' = details) :
    (settleQueuedQrJob (enqueueQrJob st now orderId details taskId).2 outcome).1 =
      (enqueueQrJob st now orderId details taskId).2 ∧
    (enqueueQrJob
        (settleQueuedQrJob (enqueueQrJob st now orderId details taskId).2
          outcome).1
        now' oid' d' t').1 = Except.error (EnqueueError.conflict oid' d') := by
  have hstate :
      (settleQueuedQrJob (enqueueQrJob st now orderId details taskId).2
        outcome).1 = (enqueueQrJob st now orderId details taskId).2 := by
    cases outcome with
    | ok _ => rfl
    | error _ => rfl
  refine ⟨hstate, ?_⟩
  rw [hstate]
  have hmem : (orderId, ⟨orderId, details, now⟩) ∈
      (enqueueQrJob st now orderId details taskId).2.processedJobs := by
    rw [enqueueQrJob_processedJobs]
    exact tryRegisterQrJob_mem_of_true hreg
  exact (enqueueQrJob_blocked
    (tryRegisterQrJob_blocked now' oid' d' hmem hwin hshare)).1

/-- C10 witness: register and queue at time 0, let the queued task reject;
the state is unchanged by the failure and reusing the details `"GLOSA-A"`
at time 1000 under a fresh orderId still conflicts. -/
theorem claim10_witness :
    (settleQueuedQrJob (enqueueQrJob ⟨[], []⟩ 0 "ORD-1" "GLOSA-A" "t1").2
        (Except.error (AutomationError.automationFailure "portal down"))).1 =
      (enqueueQrJob ⟨[], []⟩ 0 "ORD-1" "GLOSA-A" "t1").2 ∧
    (enqueueQrJob
        (settleQueuedQrJob (enqueueQrJob ⟨[], []⟩ 0 "ORD-1" "GLOSA-A" "t1").2
          (Except.error (AutomationError.automationFailure "portal down"))).1
        1000 "ORD-2" "GLOSA-A" "t2").1 =
      Except.error (EnqueueError.conflict "ORD-2" "GLOSA-A") :=
  claim10_registration_survives_task_failure ⟨[], []⟩ 0 1000 "ORD-1" "GLOSA-A"
    "t1" "ORD-2" "GLOSA-A" "t2"
    (Except.error (AutomationError.automationFailure "portal down"))
    rfl (by decide) (Or.inr rfl)

/-- C2 counterexample: `generateQr` with `deadline = 0ms` over a task that
settles successfully at time 5.  The caller does receive the timeout
indicator (`null`) and the task stays scheduled, but the call emits no
webhook event at all — in particular the Notifier never receives the
`QR_GENERATED` event the claim promises for the background success: in the
deadline-bound path nothing is chained onto the task's outcome
(`sendQrGenerated` lives only in `processGenerateQr`). -/
theorem claim2_counterexample :
    (generateQrWithTimeout ⟨[], []⟩ 0 "ORD-1" "GLOSA-A" "t1"
        (5, Except.ok "QRDATA") 0).response = Except.ok none ∧
    (generateQrWithTimeout ⟨[], []⟩ 0 "ORD-1" "GLOSA-A" "t1"
        (5, Except.ok "QRDATA") 0).taskScheduled = true ∧
    (generateQrWithTimeout ⟨[], []⟩ 0 "ORD-1" "GLOSA-A" "t1"
        (5, Except.ok "QRDATA") 0).events = [] ∧
    FiatEvent.qrGenerated "ORD-1" "QRDATA" ∉
      (generateQrWithTimeout ⟨[], []⟩ 0 "ORD-1" "GLOSA-A" "t1"
        (5, Except.ok "QRDATA") 0).events := by
  refine ⟨rfl, rfl, rfl, ?_⟩
  intro h
  exact List.not_mem_nil (FiatEvent.qrGenerated "ORD-1" "QRDATA") h

/-- C2 (amended): when the deadline elapses before the queued task settles,
the caller receives the timeout indicator (`null`) and the underlying task
is not cancelled — it stays in the pipeline and settles with its own
outcome — but the deadline-bound path emits no Notifier event for the
job's eventual outcome: `QR_GENERATED` is sent only by the fire-and-forget
`processGenerateQr` path, which this entry point does not use. -/
theorem claim2_timeout_indicator_no_event (st : JobQueueState) (now : Nat)
    (orderId details taskId : String)
    (taskSettle : Settled AutomationError String) (timeoutMs : Nat)
    (hreg : (tryRegisterQrJob st now orderId details).1 = true)
    (hrace : timeoutMs < taskSettle.1) :
    (generateQrWithTimeout st now orderId details taskId taskSettle
        timeoutMs).response = Except.ok none ∧
    (generateQrWithTimeout st now orderId details taskId taskSettle
        timeoutMs).taskScheduled = true ∧
    (generateQrWithTimeout st now orderId details taskId taskSettle
        timeoutMs).events = [] := by
  have hw : withTimeout taskSettle timeoutMs = Except.ok none := by
    unfold withTimeout
    rw [if_pos hrace]
  unfold generateQrWithTimeout
  rw [if_pos hreg, hw]
  exact ⟨rfl, rfl, rfl⟩

/-- C2 witness: a 3ms deadline against a task settling at time 7. -/
theorem claim2_witness :
    (generateQrWithTimeout ⟨[], []⟩ 0 "ORD-2" "GLOSA-B" "t9"
        (7, Except.ok "IMG") 3).response = Except.ok none ∧
    (generateQrWithTimeout ⟨[], []⟩ 0 "ORD-2" "GLOSA-B" "t9"
        (7, Except.ok "IMG") 3).taskScheduled = true ∧
    (generateQrWithTimeout ⟨[], []⟩ 0 "ORD-2" "GLOSA-B" "t9"
        (7, Except.ok "IMG") 3).events = [] :=
  claim2_timeout_indicator_no_event ⟨[], []⟩ 0 "ORD-2" "GLOSA-B" "t9"
    (7, Except.ok "IMG") 3 rfl (by omega)

/-- C5 counterexample: a queued task rejects with `StepUpRequired` at time 5
while the deadline-bound caller is still waiting (deadline 100).  The error
is classified into the `LOGIN_2FA_REQUIRED` notification, but it is not
re-raised to the caller: `generateQrWithTimeout` answers with the normal
result `null` (its `catch` returns `null`) and `verifyPaymentInline`
answers with the normal result `false` — the claim that the still-waiting
caller observes the error fails. -/
theorem claim5_counterexample :
    (generateQrWithTimeout ⟨[], []⟩ 0 "ORD-1" "GLOSA-A" "t1"
        (5, Except.error AutomationError.twoFactorRequired) 100).response =
      Except.ok none ∧
    (generateQrWithTimeout ⟨[], []⟩ 0 "ORD-1" "GLOSA-A" "t1"
        (5, Except.error AutomationError.twoFactorRequired) 100).events =
      [FiatEvent.login2faRequired] ∧
    verifyPaymentInline (5, Except.error AutomationError.twoFactorRequired) 100 =
      (false, [FiatEvent.login2faRequired]) :=
  ⟨rfl, rfl, rfl⟩

/-- C5 (amended): an error from a queued task that settles before the
deadline is caught at the orchestrator boundary and classified through
`handleAutomationError` (`StepUpRequired` → one `LOGIN_2FA_REQUIRED` event;
any other failure → logged only), but it is not re-raised: the
still-waiting deadline-bound caller receives the fallback normal result —
`null` from `generateQrWithTimeout`, `false` from `verifyPaymentInline`. -/
theorem claim5_error_classified_not_reraised (st : JobQueueState) (now : Nat)
    (orderId details taskId : String) (e : AutomationError)
    (tErr timeoutMs : Nat)
    (hreg : (tryRegisterQrJob st now orderId details).1 = true)
    (hwait : tErr ≤ timeoutMs) :
    (generateQrWithTimeout st now orderId details taskId
        (tErr, Except.error e) timeoutMs).response = Except.ok none ∧
    (generateQrWithTimeout st now orderId details taskId
        (tErr, Except.error e) timeoutMs).events = handleAutomationError e ∧
    verifyPaymentInline (tErr, Except.error e) timeoutMs =
      (false, handleAutomationError e) := by
  have hw1 : withTimeout ((tErr, Except.error e) : Settled AutomationError String)
      timeoutMs = Except.error e := by
    unfold withTimeout
    rw [if_neg (Nat.not_lt.mpr hwait)]
  have hw2 : withTimeout ((tErr, Except.error e) : Settled AutomationError Bool)
      timeoutMs = Except.error e := by
    unfold withTimeout
    rw [if_neg (Nat.not_lt.mpr hwait)]
  refine ⟨?_, ?_, ?_⟩
  · unfold generateQrWithTimeout
    rw [if_pos hreg, hw1]
  · unfold generateQrWithTimeout
    rw [if_pos hreg, hw1]
  · unfold verifyPaymentInline
    rw [hw2]

/-- C5 witness: a step-up rejection at time 2 against a 50ms deadline. -/
theorem claim5_witness :
    (generateQrWithTimeout ⟨[], []⟩ 0 "ORD-3" "GLOSA-C" "t3"
        (2, Except.error AutomationError.twoFactorRequired) 50).response =
      Except.ok none ∧
    (generateQrWithTimeout ⟨[], []⟩ 0 "ORD-3" "GLOSA-C" "t3"
        (2, Except.error AutomationError.twoFactorRequired) 50).events =
      [FiatEvent.login2faRequired] ∧
    verifyPaymentInline (2, Except.error AutomationError.twoFactorRequired) 50 =
      (false, [FiatEvent.login2faRequired]) :=
  claim5_error_classified_not_reraised ⟨[], []⟩ 0 "ORD-3" "GLOSA-C" "t3"
    AutomationError.twoFactorRequired 2 50 rfl (by omega)

/-- C3: when the step-up prompt is detected and the credential store holds
no code, the login flow fails with `StepUpRequired` without any internal
retry — the store is left untouched (nothing was consumed, and resolution
needs an external code) — and the fire-and-forget orchestrator boundary
re-raises the same error after emitting exactly the single
`LOGIN_2FA_REQUIRED` event: the event list is `[login2faRequired]`, so no
`QR_GENERATED` event is emitted for the operation. -/
theorem claim3_stepup_required_single_event (store : Option String)
    (orderId : String) (qrOutcome : Except AutomationError String)
    (hnocode : hasCode store = false) :
    (generateQrViaSession true true store qrOutcome).1 =
      Except.error AutomationError.twoFactorRequired ∧
    (generateQrViaSession true true store qrOutcome).2 = store ∧
    (processGenerateQr orderId
        (generateQrViaSession true true store qrOutcome).1).1 =
      Except.error AutomationError.twoFactorRequired ∧
    (processGenerateQr orderId
        (generateQrViaSession true true store qrOutcome).1).2 =
      [FiatEvent.login2faRequired] := by
  have h2f : handleTwoFactor true store =
      (Except.error AutomationError.twoFactorRequired, store) := by
    simp [handleTwoFactor, hnocode]
  have hg : generateQrViaSession true true store qrOutcome =
      (Except.error AutomationError.twoFactorRequired, store) := by
    simp [generateQrViaSession, h2f]
  rw [hg]
  exact ⟨rfl, rfl, rfl, rfl⟩

/-- C3 witness: an empty credential slot during a step-up prompt. -/
theorem claim3_witness :
    (generateQrViaSession true true none (Except.ok "IGNORED")).1 =
      Except.error AutomationError.twoFactorRequired ∧
    (generateQrViaSession true true none (Except.ok "IGNORED")).2 = none ∧
    (processGenerateQr "ORD-1"
        (generateQrViaSession true true none (Except.ok "IGNORED")).1).1 =
      Except.error AutomationError.twoFactorRequired ∧
    (processGenerateQr "ORD-1"
        (generateQrViaSession true true none (Except.ok "IGNORED")).1).2 =
      [FiatEvent.login2faRequired] :=
  claim3_stepup_required_single_event none "ORD-1" (Except.ok "IGNORED") rfl

end PasaTanda
